import Mathlib

/-!
Verification of the query-templating, result-normalization and error-envelope
contract of `src/server.py` (an MCP server exposing BigQuery metadata tools and
a ClickUp task-lookup tool).

The embedding is shallow: the Python functions become Lean functions, the
external effects (environment variables, credential loading, BigQuery client
construction, query submission, HTTP requests) become explicit oracle values
describing one invocation's external outcomes, and Python exceptions become
values of an explicit error type dispatched exactly as the source's
`except`-chains dispatch on exception classes.  Each tool returns, next to its
response envelope, the list of query/request texts it actually submitted, so
that "no network call is issued" is a statement about the returned trace.
-/

set_option maxRecDepth 100000

namespace SarasMCP

/-! ## Process-wide configuration (module level, `server.py` lines 19-21) -/

/-- The process environment: variable name to value (`None` when unset). -/
abbrev Env := String → Option String

/-- `os.environ.get("GOOGLE_APPLICATION_CREDENTIALS")` (line 19). -/
def DEFAULT_SERVICE_ACCOUNT_PATH (env : Env) : Option String :=
  env "GOOGLE_APPLICATION_CREDENTIALS"

/-- `os.environ.get("GOOGLE_PROJECT_ID")` (line 20): no fallback value is
supplied, so the result is `none` whenever the variable is unset. -/
def DEFAULT_PROJECT_ID (env : Env) : Option String :=
  env "GOOGLE_PROJECT_ID"

/-- `os.environ.get("DEFAULT_CLICKUP_API_KEY")` (line 21). -/
def DEFAULT_CLICKUP_API_KEY (env : Env) : Option String :=
  env "DEFAULT_CLICKUP_API_KEY"

/-- The three module-level constants, resolved once at import time. -/
structure Config where
  default_service_account_path : Option String
  default_project_id : Option String
  default_clickup_api_key : Option String

/-- Building the module-level configuration from the environment (runs once,
at process start). -/
def Config.ofEnv (env : Env) : Config :=
  { default_service_account_path := DEFAULT_SERVICE_ACCOUNT_PATH env
    default_project_id := DEFAULT_PROJECT_ID env
    default_clickup_api_key := DEFAULT_CLICKUP_API_KEY env }

/-! ## Python-level helpers -/

/-- Python truthiness of an optional string: `None` and `""` are falsy. -/
def pyTruthy : Option String → Bool
  | none => false
  | some s => s != ""

/-- Python f-string rendering of an optional string: `None` renders as the
four characters `None`. -/
def pythonStr : Option String → String
  | none => "None"
  | some s => s

/-- Python `sep.join(parts)`. -/
def strJoin (sep : String) : List String → String
  | [] => ""
  | [x] => x
  | x :: y :: xs => x ++ sep ++ strJoin sep (y :: xs)

/-! ## Result rows and the response envelope -/

/-- A BigQuery column value (string, number, boolean, timestamp or NULL). -/
inductive CellValue where
  | str (s : String)
  | num (n : Int)
  | boolVal (b : Bool)
  | timestamp (t : String)
  | null
deriving Repr, DecidableEq

/-- A flat record: the result of `dict(row)`. -/
abbrev Record := List (String × CellValue)

/-- A row produced by the BigQuery row cursor. -/
structure BQRow where
  fields : List (String × CellValue)
deriving Repr, DecidableEq

/-- `dict(row)`: the row flattened to a plain record. -/
def rowToDict (r : BQRow) : Record := r.fields

/-- The response envelope of the four warehouse tools: either
`{"success": True, "results": ...}` or
`{"success": False, "error": ..., "message": ..., "code": ...}`. -/
inductive Envelope (α : Type) where
  | success (results : α)
  | failure (error : String) (message : String) (code : Nat)
deriving Repr, DecidableEq

/-! ## Exceptions and the per-invocation oracle for the warehouse tools -/

/-- The Python exception classes the warehouse tools' `except`-chains
distinguish.  `google.api_core.exceptions.NotFound` is listed separately from
the other `GoogleAPIError`s because the source's first `except` clause catches
it first; `googleAPIError`'s `code` field carries what
`getattr(e, "code", 500)` evaluates to for that exception. -/
inductive PyError where
  | notFound (msg : String)
  | googleAPIError (msg : String) (code : Nat)
  | valueError (msg : String)
  | otherError (msg : String)
deriving Repr, DecidableEq

/-- `str(e)` as the source uses it in envelope messages. -/
def PyError.str : PyError → String
  | .notFound m => m
  | .googleAPIError m _ => m
  | .valueError m => m
  | .otherError m => m

/-- External outcomes of a single warehouse-tool invocation.
`credError`/`clientError` model `service_account.Credentials.from_service_account_file`
and `bigquery.Client(...)` raising: those constructors raise only non-Google
exceptions (`OSError`, `ValueError`, `google.auth` errors, which are not
`google.api_core.exceptions.GoogleAPIError` subclasses), so a failure there is
recorded as the raised exception's `str`.  `run q` is the outcome of
`client.query(q, ...)` followed by `query_job.result()`: either the list of
rows of the drained cursor, in cursor order, or the exception raised. -/
structure BQOracle where
  credError : Option String
  clientError : Option String
  run : String → Except PyError (List BQRow)

/-- The invocation gets past credential loading (attempted only when the
service-account path is truthy) and client construction without an exception. -/
def BQOracle.setupOk (o : BQOracle) (sap : Option String) : Prop :=
  (pyTruthy sap = true → o.credError = none) ∧ o.clientError = none

/-- The shared `except`-chain of the four warehouse tools (`except NotFound`,
then `except GoogleAPIError`, then `except Exception`), with the tool's
contextual prefix for the not-found message. -/
def bqExceptChain {α : Type} (notFoundPrefix : String) (e : PyError) : Envelope α :=
  match e with
  | .notFound m => .failure "Not Found" (notFoundPrefix ++ m) 404
  | .googleAPIError m c => .failure "Google API Error" m c
  | .valueError m => .failure "Execution Error" m 500
  | .otherError m => .failure "Execution Error" m 500

/-- The shared body shape of the four warehouse tools: load credentials when
the service-account path is truthy, construct the client, build the SQL text
(which for `get_client_datasets` can itself raise `ValueError`), submit it and
drain the cursor into a list of flat records.  The second component is the
list of SQL texts submitted to the warehouse during the invocation. -/
def runBQTool (o : BQOracle) (sap : Option String) (notFoundPrefix : String)
    (buildSql : Except PyError String) : Envelope (List Record) × List String :=
  match (if pyTruthy sap then o.credError else none) with
  | some m => (bqExceptChain notFoundPrefix (.otherError m), [])
  | none =>
    match o.clientError with
    | some m => (bqExceptChain notFoundPrefix (.otherError m), [])
    | none =>
      match buildSql with
      | .error e => (bqExceptChain notFoundPrefix e, [])
      | .ok sql =>
        match o.run sql with
        | .error e => (bqExceptChain notFoundPrefix e, [sql])
        | .ok rows => (.success (rows.map rowToDict), [sql])

/-! ## execute_bigquery (lines 26-77) -/

/-- `execute_bigquery`: the caller's query text is submitted verbatim. -/
def execute_bigquery (o : BQOracle) (query : String)
    (service_account_path : Option String) : Envelope (List Record) × List String :=
  runBQTool o service_account_path "Dataset or table not found: " (.ok query)

/-! ## get_client_details (lines 82-191) -/

/-- The `base_query` literal of `get_client_details` (lines 115-145),
transcribed character for character. -/
def get_client_details_base_query : String :=
  "\n        WITH\n          sources AS (\n          SELECT\n            updated_at,\n            client_id,\n            client_name,\n            sources\n          FROM\n            `insightsprod.edm_insights_metadata.client`\n          QUALIFY\n            ROW_NUMBER() OVER (PARTITION BY client_id, client_name ORDER BY updated_at DESC) = 1\n          ORDER BY\n            updated_at DESC),\n          git as (\n            select client_id, git_url from `insightsprod.edm_insights_metadata.client_git`\n            qualify row_number() OVER (partition by client_id order by updated_at desc) = 1\n          ),\n          final AS (\n          SELECT\n            src.*,\n            g.git_url\n          FROM\n            sources as src\n          left join git as g\n          on src.client_id = g.client_id )\n        SELECT\n          *\n        FROM\n          final\n        "

/-- The SQL text `get_client_details` renders (lines 147-163): collect the
WHERE fragments of the truthy filters in the order client_id, client_name;
join them with AND behind one WHERE when any is present; then append the
ORDER BY and the LIMIT. -/
def get_client_details_sql (client_id client_name : String) : String :=
  let where_clauses : List String :=
    (if client_id != "" then ["client_id = " ++ client_id] else []) ++
      (if client_name != "" then
        ["LOWER(client_name) LIKE LOWER('%" ++ client_name ++ "%')"] else [])
  let q := get_client_details_base_query
  let q := if where_clauses.isEmpty then q
    else q ++ " WHERE " ++ strJoin " AND " where_clauses
  let q := q ++ " ORDER BY updated_at DESC"
  q ++ " LIMIT 1000"

/-- `get_client_details`: renders the filtered client lookup and submits it. -/
def get_client_details (o : BQOracle) (client_id client_name : String)
    (service_account_path : Option String) : Envelope (List Record) × List String :=
  runBQTool o service_account_path "Client metadata tables not found: "
    (.ok (get_client_details_sql client_id client_name))

/-! ## get_client_datasets (lines 195-279) -/

/-- The filter-selection step of `get_client_datasets` (lines 228-236):
client_id takes priority, then client_name, and with neither a `ValueError`
is raised before any query text is built. -/
def get_client_datasets_filter (client_id client_name : String) : Except PyError String :=
  if client_id != "" then
    .ok ("schema_name LIKE '%" ++ client_id ++ "%'")
  else if client_name != "" then
    .ok ("schema_name LIKE '%" ++ client_name ++ "%'")
  else
    .error (.valueError "Either client_id or client_name must be provided.")

/-- The f-string query of `get_client_datasets` (lines 239-251): the module
default project (rendered with Python `str`, so `None` when unset) and the
chosen filter interpolated into the fixed skeleton. -/
def get_client_datasets_sql (default_project_id : Option String)
    (client_filter : String) : String :=
  "\n        SELECT\n          schema_name AS dataset_id,\n          catalog_name AS project_id,\n          creation_time,\n          last_modified_time,\n          location\n        FROM\n          `" ++
    pythonStr default_project_id ++
    ".region-us-central1.INFORMATION_SCHEMA.SCHEMATA`\n        WHERE " ++
    client_filter ++
    "\n        ORDER BY\n          last_modified_time DESC\n        "

/-- `get_client_datasets`: choose the filter (raising when both identifiers
are empty), render the schema scan and submit it. -/
def get_client_datasets (o : BQOracle) (cfg : Config)
    (client_id client_name : String) (service_account_path : Option String) :
    Envelope (List Record) × List String :=
  runBQTool o service_account_path "Dataset information not found: "
    ((get_client_datasets_filter client_id client_name).map
      (get_client_datasets_sql cfg.default_project_id))

/-! ## get_dataset_tables (lines 283-356) -/

/-- The f-string query of `get_dataset_tables` (lines 314-328). -/
def get_dataset_tables_sql (project_id dataset_id : String) : String :=
  "\n        SELECT\n          table_catalog,\n          table_schema,\n          table_name,\n          table_type,\n          is_insertable_into,\n          is_typed,\n          creation_time,\n          ddl\n        FROM\n          `" ++
    project_id ++ "." ++ dataset_id ++
    ".INFORMATION_SCHEMA.TABLES`\n        ORDER BY\n          table_name\n        "

/-- The effective `project_id` of `get_dataset_tables`: the caller's value
when passed, else the parameter default `DEFAULT_PROJECT_ID` (an
`Option String`, rendered with Python `str` inside the f-string). -/
def resolve_project_id (cfg : Config) (project_id : Option String) : String :=
  match project_id with
  | some p => p
  | none => pythonStr cfg.default_project_id

/-- `get_dataset_tables`: `project_id = none` models the caller omitting the
argument. -/
def get_dataset_tables (o : BQOracle) (cfg : Config) (dataset_id : String)
    (project_id : Option String) (service_account_path : Option String) :
    Envelope (List Record) × List String :=
  runBQTool o service_account_path ("Dataset '" ++ dataset_id ++ "' not found: ")
    (.ok (get_dataset_tables_sql (resolve_project_id cfg project_id) dataset_id))

/-! ## get_clickup_task (lines 359-455)

The task payload is a JSON object.  The source manipulates it only at the
top level (checking for and inserting the key `"comments"`), so the
embedding keeps the object as an association list; nested values are kept
opaque (`atom`) except that a list value (the shape of the comments array)
is representable, since `comments_data.get("comments", [])` needs a
list-valued default. -/

/-- A JSON value at the granularity the source inspects it. -/
inductive JVal where
  | atom (s : String)
  | listVal (items : List String)
deriving Repr, DecidableEq

/-- A JSON object: ordered association list, as a Python dict. -/
abbrev JObj := List (String × JVal)

/-- Python `k in d` / `d.get(k)` on a dict: the value under the first
matching key, if any. -/
def lookupKey (obj : JObj) (k : String) : Option JVal :=
  match obj with
  | [] => none
  | (k', v) :: rest => if k' = k then some v else lookupKey rest k

/-- Python `d[k] = v`: replace in place when the key exists, else append. -/
def dictSet (obj : JObj) (k : String) (v : JVal) : JObj :=
  match obj with
  | [] => [(k, v)]
  | (k', v') :: rest =>
    if k' = k then (k, v) :: rest else (k', v') :: dictSet rest k v

deriving instance DecidableEq for Except

/-- An HTTP response as `requests` presents it: the status code, the outcome
of `.json()` (which raises on an unparsable body — the `.error` case carries
the exception's `str`), and the `str` of the `HTTPError` that
`raise_for_status` would raise for this response. -/
structure HttpResp where
  status : Nat
  json : Except String JObj
  errStr : String
deriving Repr, DecidableEq

/-- The outcome of one `requests.get`: a response, a
`requests.exceptions.ConnectionError`, or any other raised exception. -/
inductive HttpOutcome where
  | resp (r : HttpResp)
  | connError
  | otherError (msg : String)
deriving Repr, DecidableEq

/-- External outcomes of one `get_clickup_task` invocation: the primary GET
to the task endpoint, and the GET to the comments sub-resource (consulted
only if that request is made). -/
structure ClickUpOracle where
  primary : HttpOutcome
  comments : HttpOutcome
deriving Repr, DecidableEq

/-- The ClickUp tool's envelope: `{"success": True, "result": task_data}` or
a failure.  The message field holds the raw value the source puts in the
dict (for `ClickUp API Error` it can be the payload's `"err"` value). -/
inductive CUEnvelope where
  | success (result : JObj)
  | failure (error : String) (message : JVal) (code : Nat)
deriving Repr, DecidableEq

/-- The connection-failure message literal (lines 446-451). -/
def clickup_conn_error_message : String :=
  "Failed to connect to the ClickUp API. Please check your internet connection."

/-- `get_clickup_task`: one GET to the task endpoint; on a 4xx/5xx status
`raise_for_status` raises `HTTPError`, dispatched to the 401/404/other
envelopes; otherwise the body is parsed and, when `include_comments` is set
and the payload lacks a `"comments"` key, one further GET fetches the
comments, merged only when that response's status is exactly 200 (a non-200
status is ignored; a raised `ConnectionError` or other exception from the
second request propagates to the outer handlers).  The second component is
the list of request URLs issued.  Query parameters (`include_subtasks`) and
headers (`api_key`) do not alter the URL strings the source builds. -/
def get_clickup_task (o : ClickUpOracle) (task_id : String)
    (api_key : Option String) (include_subtasks include_comments : Bool) :
    CUEnvelope × List String :=
  let base_url := "https://api.clickup.com/api/v2/task/" ++ task_id
  match o.primary with
  | .connError =>
    (.failure "Connection Error" (.atom clickup_conn_error_message) 503, [base_url])
  | .otherError m => (.failure "Execution Error" (.atom m) 500, [base_url])
  | .resp r =>
    if 400 ≤ r.status ∧ r.status < 600 then
      let error_message : JVal :=
        match r.json with
        | .ok error_data => ((lookupKey error_data "err").getD (.atom r.errStr))
        | .error _ => .atom r.errStr
      if r.status = 401 then
        (.failure "Authentication Error"
          (.atom "Invalid API key or unauthorized access") 401, [base_url])
      else if r.status = 404 then
        (.failure "Not Found"
          (.atom ("Task with ID '" ++ task_id ++ "' not found")) 404, [base_url])
      else
        (.failure "ClickUp API Error" error_message r.status, [base_url])
    else
      match r.json with
      | .error m => (.failure "Execution Error" (.atom m) 500, [base_url])
      | .ok task_data =>
        if include_comments ∧ lookupKey task_data "comments" = none then
          let comments_url := base_url ++ "/comment"
          match o.comments with
          | .connError =>
            (.failure "Connection Error" (.atom clickup_conn_error_message) 503,
              [base_url, comments_url])
          | .otherError m =>
            (.failure "Execution Error" (.atom m) 500, [base_url, comments_url])
          | .resp cr =>
            if cr.status = 200 then
              match cr.json with
              | .error m =>
                (.failure "Execution Error" (.atom m) 500, [base_url, comments_url])
              | .ok comments_data =>
                let v := (lookupKey comments_data "comments").getD (.listVal [])
                (.success (dictSet task_data "comments" v), [base_url, comments_url])
            else
              (.success task_data, [base_url, comments_url])
        else
          (.success task_data, [base_url])

/-! ## Specification-side definitions -/

/-- Whether `pat` occurs as a contiguous run inside `l` (substring search
over character lists). -/
def containsList (pat : List Char) : List Char → Bool
  | [] => pat.isEmpty
  | b :: bs => pat.isPrefixOf (b :: bs) || containsList pat bs

/-- Python `pat in s`: substring containment. -/
def containsSubstr (pat s : String) : Bool :=
  containsList pat.data s.data

/-- A structured warehouse-tool envelope: a success, or a failure whose error
label belongs to the warehouse tools' taxonomy. -/
def isStructuredBQ (env : Envelope (List Record)) : Prop :=
  (∃ rs, env = .success rs) ∨
    ∃ er m c, env = .failure er m c ∧
      er ∈ ["Not Found", "Google API Error", "Execution Error"]

/-- A structured ClickUp-tool envelope: a success, or a failure whose error
label belongs to the ClickUp tool's taxonomy. -/
def isStructuredCU (env : CUEnvelope) : Prop :=
  (∃ r, env = .success r) ∨
    ∃ er m c, env = .failure er m c ∧
      er ∈ ["Authentication Error", "Not Found", "ClickUp API Error",
        "Connection Error", "Execution Error"]

/-- An invocation whose external calls all succeed, with an empty cursor. -/
def sampleOkOracle : BQOracle :=
  { credError := none, clientError := none, run := fun _ => .ok [] }

/-- An invocation whose query submission raises `NotFound`. -/
def sampleNotFoundOracle : BQOracle :=
  { credError := none, clientError := none,
    run := fun _ => .error (.notFound
      "Not found: Dataset insightsprod:missing was not found in location US") }

/-- A configuration with the default project set. -/
def sampleConfig : Config :=
  { default_service_account_path := none
    default_project_id := some "insightsprod"
    default_clickup_api_key := none }

/-- A ClickUp invocation: primary request succeeds with a payload that lacks
a `comments` field, and the comments request raises `ConnectionError`. -/
def clickupConnFailOracle : ClickUpOracle :=
  { primary := .resp { status := 200, json := .ok [("id", .atom "86c2f")], errStr := "" },
    comments := .connError }

/-- A ClickUp invocation: primary request succeeds with a payload that lacks
a `comments` field, and the comments request returns HTTP 500. -/
def clickup500CommentsOracle : ClickUpOracle :=
  { primary := .resp { status := 200, json := .ok [("id", .atom "86c2f")], errStr := "" },
    comments := .resp { status := 500, json := .error "Expecting value", errStr := "500 Server Error" } }

/-- A ClickUp invocation whose primary request returns HTTP 401. -/
def clickup401Oracle : ClickUpOracle :=
  { primary := .resp { status := 401, json := .error "Expecting value", errStr := "401 Client Error" },
    comments := .connError }

/-! ## Helper lemmas about the shared warehouse-tool body -/

/-- Under a clean setup, a successful run produces the success envelope of the
flattened rows and a trace of exactly the submitted query. -/
theorem runBQTool_ok (o : BQOracle) (sap : Option String) (pfx sql : String)
    (rows : List BQRow) (h : o.setupOk sap) (hrun : o.run sql = .ok rows) :
    runBQTool o sap pfx (.ok sql) = (.success (rows.map rowToDict), [sql]) := by
  obtain ⟨h1, h2⟩ := h
  cases hp : pyTruthy sap with
  | false => simp [runBQTool, hp, h2, hrun]
  | true => simp [runBQTool, hp, h1 hp, h2, hrun]

/-- Under a clean setup, a run that raises maps through the except-chain, the
trace still recording the submitted query. -/
theorem runBQTool_run_error (o : BQOracle) (sap : Option String) (pfx sql : String)
    (e : PyError) (h : o.setupOk sap) (hrun : o.run sql = .error e) :
    runBQTool o sap pfx (.ok sql) = (bqExceptChain pfx e, [sql]) := by
  obtain ⟨h1, h2⟩ := h
  cases hp : pyTruthy sap with
  | false => simp [runBQTool, hp, h2, hrun]
  | true => simp [runBQTool, hp, h1 hp, h2, hrun]

/-- Under a clean setup, a builder that raises maps through the except-chain
and nothing is submitted to the warehouse. -/
theorem runBQTool_build_error (o : BQOracle) (sap : Option String) (pfx : String)
    (e : PyError) (h : o.setupOk sap) :
    runBQTool o sap pfx (.error e) = (bqExceptChain pfx e, []) := by
  obtain ⟨h1, h2⟩ := h
  cases hp : pyTruthy sap with
  | false => simp [runBQTool, hp, h2]
  | true => simp [runBQTool, hp, h1 hp, h2]

/-! ## C1 -/

/-- C1: for `get_client_details`, the rendered SQL contains exactly the WHERE
fragments of the non-empty filters — the `client_id` equality fragment before
the case-insensitive LIKE fragment for `client_name`, joined with AND when
both are present, and no WHERE clause when neither is — and the rendered text
always ends with `ORDER BY updated_at DESC` followed by `LIMIT 1000`. -/
theorem c1_client_details_sql_shape (client_id client_name : String) :
    (client_id = "" → client_name = "" →
      get_client_details_sql client_id client_name =
        get_client_details_base_query ++ " ORDER BY updated_at DESC" ++ " LIMIT 1000") ∧
    (client_id ≠ "" → client_name = "" →
      get_client_details_sql client_id client_name =
        get_client_details_base_query ++ " WHERE " ++ ("client_id = " ++ client_id) ++
          " ORDER BY updated_at DESC" ++ " LIMIT 1000") ∧
    (client_id = "" → client_name ≠ "" →
      get_client_details_sql client_id client_name =
        get_client_details_base_query ++ " WHERE " ++
          ("LOWER(client_name) LIKE LOWER('%" ++ client_name ++ "%')") ++
          " ORDER BY updated_at DESC" ++ " LIMIT 1000") ∧
    (client_id ≠ "" → client_name ≠ "" →
      get_client_details_sql client_id client_name =
        get_client_details_base_query ++ " WHERE " ++
          ("client_id = " ++ client_id ++ " AND " ++
            ("LOWER(client_name) LIKE LOWER('%" ++ client_name ++ "%')")) ++
          " ORDER BY updated_at DESC" ++ " LIMIT 1000") ∧
    (∃ p, get_client_details_sql client_id client_name =
      p ++ " ORDER BY updated_at DESC" ++ " LIMIT 1000") := by
  refine ⟨?_, ?_, ?_, ?_, ?_⟩
  · intro h1 h2
    simp [get_client_details_sql, h1, h2, strJoin]
  · intro h1 h2
    simp [get_client_details_sql, h1, h2, strJoin]
  · intro h1 h2
    simp [get_client_details_sql, h1, h2, strJoin]
  · intro h1 h2
    simp [get_client_details_sql, h1, h2, strJoin]
  · by_cases h1 : client_id = "" <;> by_cases h2 : client_name = ""
    · exact ⟨get_client_details_base_query, by simp [get_client_details_sql, h1, h2, strJoin]⟩
    · exact ⟨get_client_details_base_query ++ " WHERE " ++
        ("LOWER(client_name) LIKE LOWER('%" ++ client_name ++ "%')"),
        by simp [get_client_details_sql, h1, h2, strJoin]⟩
    · exact ⟨get_client_details_base_query ++ " WHERE " ++ ("client_id = " ++ client_id),
        by simp [get_client_details_sql, h1, h2, strJoin]⟩
    · exact ⟨get_client_details_base_query ++ " WHERE " ++
        ("client_id = " ++ client_id ++ " AND " ++
          ("LOWER(client_name) LIKE LOWER('%" ++ client_name ++ "%')")),
        by simp [get_client_details_sql, h1, h2, strJoin]⟩

/-- Witness for C1 at concrete filters. -/
theorem c1_client_details_sql_shape_witness :
    get_client_details_sql "42" "Acme" =
      get_client_details_base_query ++ " WHERE " ++
        ("client_id = " ++ "42" ++ " AND " ++
          ("LOWER(client_name) LIKE LOWER('%" ++ "Acme" ++ "%')")) ++
        " ORDER BY updated_at DESC" ++ " LIMIT 1000" :=
  (c1_client_details_sql_shape "42" "Acme").2.2.2.1 (by decide) (by decide)

/-! ## More helper lemmas -/

/-- Whatever the credential and client outcomes, a builder that raises
`ValueError` ends in an `Execution Error` failure with an empty trace. -/
theorem runBQTool_early_failure (o : BQOracle) (sap : Option String) (pfx m0 : String) :
    ∃ m, runBQTool o sap pfx (.error (.valueError m0)) =
      (.failure "Execution Error" m 500, []) := by
  unfold runBQTool
  cases hc : (if pyTruthy sap then o.credError else none) with
  | some m => exact ⟨m, by simp [bqExceptChain]⟩
  | none =>
    cases hcl : o.clientError with
    | some m => exact ⟨m, by simp [bqExceptChain]⟩
    | none => exact ⟨m0, by simp [bqExceptChain]⟩

/-- Under a clean setup the submitted-query trace is exactly the built SQL,
whether or not the run raises. -/
theorem runBQTool_snd_ok (o : BQOracle) (sap : Option String) (pfx sql : String)
    (h : o.setupOk sap) : (runBQTool o sap pfx (.ok sql)).snd = [sql] := by
  obtain ⟨h1, h2⟩ := h
  cases hp : pyTruthy sap with
  | false => cases hr : o.run sql <;> simp [runBQTool, hp, h2, hr]
  | true => cases hr : o.run sql <;> simp [runBQTool, hp, h1 hp, h2, hr]

/-! ## C2 -/

/-- C2: `get_client_datasets` with neither identifier supplied returns an
`Execution Error` failure with code 500 and issues no warehouse query; with
at least one identifier it submits the schema scan filtered by a partial
(LIKE) match on the supplied identifier, `client_id` taking priority when
both are given. -/
theorem c2_client_datasets_requires_filter (o : BQOracle) (cfg : Config)
    (client_id client_name : String) (sap : Option String) :
    (client_id = "" → client_name = "" →
      ∃ m, get_client_datasets o cfg client_id client_name sap =
        (.failure "Execution Error" m 500, [])) ∧
    (client_id ≠ "" → o.setupOk sap →
      (get_client_datasets o cfg client_id client_name sap).snd =
        [get_client_datasets_sql cfg.default_project_id
          ("schema_name LIKE '%" ++ client_id ++ "%'")]) ∧
    (client_id = "" → client_name ≠ "" → o.setupOk sap →
      (get_client_datasets o cfg client_id client_name sap).snd =
        [get_client_datasets_sql cfg.default_project_id
          ("schema_name LIKE '%" ++ client_name ++ "%'")]) := by
  refine ⟨?_, ?_, ?_⟩
  · intro h1 h2
    have hb : (get_client_datasets_filter client_id client_name).map
        (get_client_datasets_sql cfg.default_project_id) =
        .error (.valueError "Either client_id or client_name must be provided.") := by
      simp [get_client_datasets_filter, h1, h2, Except.map]
    unfold get_client_datasets
    rw [hb]
    exact runBQTool_early_failure o sap _ _
  · intro h1 hs
    have hb : (get_client_datasets_filter client_id client_name).map
        (get_client_datasets_sql cfg.default_project_id) =
        .ok (get_client_datasets_sql cfg.default_project_id
          ("schema_name LIKE '%" ++ client_id ++ "%'")) := by
      simp [get_client_datasets_filter, h1, Except.map]
    unfold get_client_datasets
    rw [hb]
    exact runBQTool_snd_ok o sap _ _ hs
  · intro h1 h2 hs
    have hb : (get_client_datasets_filter client_id client_name).map
        (get_client_datasets_sql cfg.default_project_id) =
        .ok (get_client_datasets_sql cfg.default_project_id
          ("schema_name LIKE '%" ++ client_name ++ "%'")) := by
      simp [get_client_datasets_filter, h1, h2, Except.map]
    unfold get_client_datasets
    rw [hb]
    exact runBQTool_snd_ok o sap _ _ hs

/-- Witness for C2 at a concrete invocation. -/
theorem c2_client_datasets_requires_filter_witness :
    (get_client_datasets sampleOkOracle sampleConfig "abc" "" none).snd =
      [get_client_datasets_sql (some "insightsprod")
        ("schema_name LIKE '%" ++ "abc" ++ "%'")] :=
  (c2_client_datasets_requires_filter sampleOkOracle sampleConfig "abc" "" none).2.1
    (by decide) ⟨fun _ => rfl, rfl⟩

/-! ## C5 (corrected) -/

/-- C5 counterexample: with `GOOGLE_PROJECT_ID` unset, the module-level
default project identifier is `None` — there is no literal fallback value. -/
theorem c5_counterexample :
    DEFAULT_PROJECT_ID (fun _ => none) = none ∧
    (Config.ofEnv (fun _ => none)).default_project_id = none :=
  ⟨rfl, rfl⟩

/-- C5 (amended): the process-wide default project identifier is read once at
startup from the `GOOGLE_PROJECT_ID` environment variable; when that variable
is unset it is `None` (absent), with no literal fallback. -/
theorem c5_default_project_id (env : Env) :
    (Config.ofEnv env).default_project_id = env "GOOGLE_PROJECT_ID" ∧
    (env "GOOGLE_PROJECT_ID" = none → (Config.ofEnv env).default_project_id = none) ∧
    (∀ v, env "GOOGLE_PROJECT_ID" = some v →
      (Config.ofEnv env).default_project_id = some v) := by
  refine ⟨rfl, ?_, ?_⟩
  · intro h
    simp [Config.ofEnv, DEFAULT_PROJECT_ID, h]
  · intro v h
    simp [Config.ofEnv, DEFAULT_PROJECT_ID, h]

/-- Witness for C5's amended statement. -/
theorem c5_default_project_id_witness :
    (Config.ofEnv (fun _ => some "insightsprod")).default_project_id =
      some "insightsprod" :=
  (c5_default_project_id (fun _ => some "insightsprod")).2.2 "insightsprod" rfl

/-! ## C7 (corrected) -/

/-- C7 counterexample: a vendor NotFound during `get_client_details` produces
the `Not Found`/404 failure, but its message — the fixed contextual prefix
plus the vendor message — does not contain the identifier the caller
requested (`acme42`). -/
theorem c7_counterexample :
    (get_client_details sampleNotFoundOracle "acme42" "" none).fst =
      .failure "Not Found"
        ("Client metadata tables not found: " ++
          "Not found: Dataset insightsprod:missing was not found in location US") 404 ∧
    containsSubstr "acme42"
      ("Client metadata tables not found: " ++
        "Not found: Dataset insightsprod:missing was not found in location US") = false := by
  exact ⟨rfl, rfl⟩

/-- C7 (amended): a vendor NotFound during any warehouse call normalizes to
`Failure{error="Not Found", code=404}` whose message is the original vendor
message behind a tool-specific contextual prefix; that prefix contains the
caller-requested resource identifier only for `get_dataset_tables`, whose
message embeds the requested `dataset_id`. -/
theorem c7_not_found_mapping (o : BQOracle) (cfg : Config) (sap : Option String)
    (query client_id client_name dataset_id project_id msg : String)
    (hs : o.setupOk sap) (hrun : ∀ q, o.run q = .error (.notFound msg)) :
    (execute_bigquery o query sap).fst =
      .failure "Not Found" ("Dataset or table not found: " ++ msg) 404 ∧
    (get_client_details o client_id client_name sap).fst =
      .failure "Not Found" ("Client metadata tables not found: " ++ msg) 404 ∧
    (client_id ≠ "" →
      (get_client_datasets o cfg client_id client_name sap).fst =
        .failure "Not Found" ("Dataset information not found: " ++ msg) 404) ∧
    (get_dataset_tables o cfg dataset_id (some project_id) sap).fst =
      .failure "Not Found" ("Dataset '" ++ dataset_id ++ "' not found: " ++ msg) 404 ∧
    (∃ pre post, ("Dataset '" ++ dataset_id ++ "' not found: " ++ msg) =
      pre ++ dataset_id ++ post) := by
  refine ⟨?_, ?_, ?_, ?_, ?_⟩
  · rw [execute_bigquery, runBQTool_run_error o sap _ query _ hs (hrun query)]
    rfl
  · rw [get_client_details,
      runBQTool_run_error o sap _ _ _ hs (hrun (get_client_details_sql client_id client_name))]
    rfl
  · intro h1
    have hb : (get_client_datasets_filter client_id client_name).map
        (get_client_datasets_sql cfg.default_project_id) =
        .ok (get_client_datasets_sql cfg.default_project_id
          ("schema_name LIKE '%" ++ client_id ++ "%'")) := by
      simp [get_client_datasets_filter, h1, Except.map]
    unfold get_client_datasets
    rw [hb, runBQTool_run_error o sap _ _ _ hs (hrun _)]
    rfl
  · rw [get_dataset_tables, runBQTool_run_error o sap _ _ _ hs (hrun _)]
    rfl
  · refine ⟨"Dataset '", "' not found: " ++ msg, ?_⟩
    simp [String.append_assoc]

/-- Witness for C7's amended statement. -/
theorem c7_not_found_mapping_witness :
    (get_dataset_tables sampleNotFoundOracle sampleConfig "ds1" (some "p1") none).fst =
      .failure "Not Found"
        ("Dataset '" ++ "ds1" ++ "' not found: " ++
          "Not found: Dataset insightsprod:missing was not found in location US") 404 :=
  (c7_not_found_mapping sampleNotFoundOracle sampleConfig none "q" "c" "n" "ds1" "p1"
    "Not found: Dataset insightsprod:missing was not found in location US"
    ⟨fun _ => rfl, rfl⟩ (fun _ => rfl)).2.2.2.1

/-! ## C8 -/

/-- C8: `get_dataset_tables` without a `project_id` submits exactly one
deterministic query, rendered from the configured default project: its table
path is `<default_project>.<dataset_id>.INFORMATION_SCHEMA.TABLES` and the
rendered text ends with `ORDER BY table_name` (ascending; transcribed with
the source's whitespace). -/
theorem c8_dataset_tables_default_project (o : BQOracle) (cfg : Config)
    (sap : Option String) (dataset_id p : String)
    (hp : cfg.default_project_id = some p) (hs : o.setupOk sap) :
    (get_dataset_tables o cfg dataset_id none sap).snd =
      [get_dataset_tables_sql p dataset_id] ∧
    (∃ pre post, get_dataset_tables_sql p dataset_id =
      pre ++ p ++ "." ++ dataset_id ++ ".INFORMATION_SCHEMA.TABLES" ++ post) ∧
    (∃ pre, get_dataset_tables_sql p dataset_id =
      pre ++ "ORDER BY\n          table_name\n        ") := by
  refine ⟨?_, ?_, ?_⟩
  · have hr : resolve_project_id cfg none = p := by
      simp [resolve_project_id, pythonStr, hp]
    rw [get_dataset_tables, hr]
    exact runBQTool_snd_ok o sap _ _ hs
  · refine ⟨"\n        SELECT\n          table_catalog,\n          table_schema,\n          table_name,\n          table_type,\n          is_insertable_into,\n          is_typed,\n          creation_time,\n          ddl\n        FROM\n          `",
      "`\n        ORDER BY\n          table_name\n        ", ?_⟩
    rw [String.append_assoc _ ".INFORMATION_SCHEMA.TABLES"]
    rfl
  · refine ⟨"\n        SELECT\n          table_catalog,\n          table_schema,\n          table_name,\n          table_type,\n          is_insertable_into,\n          is_typed,\n          creation_time,\n          ddl\n        FROM\n          `" ++
      p ++ "." ++ dataset_id ++ ".INFORMATION_SCHEMA.TABLES`\n        ", ?_⟩
    rw [String.append_assoc _ ".INFORMATION_SCHEMA.TABLES`\n        "]
    rfl

/-- Witness for C8 at a concrete invocation. -/
theorem c8_dataset_tables_default_project_witness :
    (get_dataset_tables sampleOkOracle sampleConfig "ds1" none none).snd =
      [get_dataset_tables_sql "insightsprod" "ds1"] :=
  (c8_dataset_tables_default_project sampleOkOracle sampleConfig none "ds1"
    "insightsprod" rfl ⟨fun _ => rfl, rfl⟩).1

/-! ## C9 -/

/-- C9: for every warehouse tool, a successful run drains the cursor into
`rows.map rowToDict` — the warehouse-returned row order, flattened, with no
client-side re-sort — and a cursor yielding zero rows normalizes to
`Success` with empty results, not a failure. -/
theorem c9_result_normalization (o : BQOracle) (cfg : Config) (sap : Option String)
    (query client_id client_name dataset_id : String) (project_id : Option String)
    (rows : List BQRow) (hs : o.setupOk sap) (hrun : ∀ q, o.run q = .ok rows) :
    (execute_bigquery o query sap).fst = .success (rows.map rowToDict) ∧
    (get_client_details o client_id client_name sap).fst = .success (rows.map rowToDict) ∧
    (client_id ≠ "" →
      (get_client_datasets o cfg client_id client_name sap).fst =
        .success (rows.map rowToDict)) ∧
    (get_dataset_tables o cfg dataset_id project_id sap).fst =
      .success (rows.map rowToDict) ∧
    (rows = [] → (execute_bigquery o query sap).fst = .success []) := by
  refine ⟨?_, ?_, ?_, ?_, ?_⟩
  · rw [execute_bigquery, runBQTool_ok o sap _ query rows hs (hrun query)]
  · rw [get_client_details, runBQTool_ok o sap _ _ rows hs (hrun _)]
  · intro h1
    have hb : (get_client_datasets_filter client_id client_name).map
        (get_client_datasets_sql cfg.default_project_id) =
        .ok (get_client_datasets_sql cfg.default_project_id
          ("schema_name LIKE '%" ++ client_id ++ "%'")) := by
      simp [get_client_datasets_filter, h1, Except.map]
    unfold get_client_datasets
    rw [hb, runBQTool_ok o sap _ _ rows hs (hrun _)]
  · rw [get_dataset_tables, runBQTool_ok o sap _ _ rows hs (hrun _)]
  · intro h
    subst h
    rw [execute_bigquery, runBQTool_ok o sap _ query [] hs (hrun query)]
    rfl

/-- Witness for C9: the empty cursor yields `Success []`. -/
theorem c9_result_normalization_witness :
    (execute_bigquery sampleOkOracle "SELECT 1" none).fst =
      .success ([] : List Record) :=
  (c9_result_normalization sampleOkOracle sampleConfig none "SELECT 1" "" "" "d" none
    [] ⟨fun _ => rfl, rfl⟩ (fun _ => rfl)).2.2.2.2 rfl

/-! ## C10 -/

/-- C10: empty-string filters are indistinguishable from absent ones (the
parameter defaults are the empty string): `get_client_details "" ""` renders
the unfiltered query with no WHERE clause, and `get_client_datasets` with
both filters empty takes the missing-filter `ValueError` path, returning the
`Execution Error` failure with no query issued. -/
theorem c10_empty_filters (o : BQOracle) (cfg : Config) (sap : Option String)
    (hs : o.setupOk sap) :
    get_client_details_sql "" "" =
      get_client_details_base_query ++ " ORDER BY updated_at DESC" ++ " LIMIT 1000" ∧
    containsSubstr " WHERE " (get_client_details_sql "" "") = false ∧
    get_client_datasets_filter "" "" =
      .error (.valueError "Either client_id or client_name must be provided.") ∧
    get_client_datasets o cfg "" "" sap =
      (.failure "Execution Error"
        "Either client_id or client_name must be provided." 500, []) := by
  refine ⟨?_, ?_, rfl, ?_⟩
  · simp [get_client_details_sql, strJoin]
  · rfl
  · unfold get_client_datasets
    exact runBQTool_build_error o sap _ _ hs

/-- Witness for C10 at a concrete invocation. -/
theorem c10_empty_filters_witness :
    get_client_datasets sampleOkOracle sampleConfig "" "" none =
      (.failure "Execution Error"
        "Either client_id or client_name must be provided." 500, []) :=
  (c10_empty_filters sampleOkOracle sampleConfig none ⟨fun _ => rfl, rfl⟩).2.2.2

/-! ## C3 -/

/-- The except-chain only emits the warehouse taxonomy's failure labels. -/
theorem bqExceptChain_structured (pfx : String) (e : PyError) (tr : List String) :
    ∃ er m c, (bqExceptChain (α := List Record) pfx e, tr).1 = .failure er m c ∧
      er ∈ ["Not Found", "Google API Error", "Execution Error"] := by
  cases e <;> exact ⟨_, _, _, rfl, by simp⟩

/-- Whatever the external outcomes, a warehouse tool's envelope is a success
or one of the taxonomy's failures. -/
theorem runBQTool_structured (o : BQOracle) (sap : Option String) (pfx : String)
    (b : Except PyError String) : isStructuredBQ (runBQTool o sap pfx b).fst := by
  unfold runBQTool isStructuredBQ
  repeat' split
  all_goals
    first
    | exact .inl ⟨_, rfl⟩
    | exact .inr (bqExceptChain_structured _ _ _)

/-- Whatever the external outcomes, `get_clickup_task`'s envelope is a
success or one of the taxonomy's failures. -/
theorem get_clickup_task_structured (o : ClickUpOracle) (task_id : String)
    (api_key : Option String) (st ct : Bool) :
    isStructuredCU (get_clickup_task o task_id api_key st ct).fst := by
  unfold get_clickup_task isStructuredCU
  cases o.primary with
  | connError => exact .inr ⟨_, _, _, rfl, by simp⟩
  | otherError m => exact .inr ⟨_, _, _, rfl, by simp⟩
  | resp r =>
    repeat' split
    all_goals
      first
      | exact .inl ⟨_, rfl⟩
      | exact .inr ⟨_, _, _, rfl, by simp⟩

/-- C3: every tool function, on every input and every combination of external
outcomes (credential loading, client construction, query submission, row
materialization, HTTP requests failing or succeeding), returns a structured
envelope — a success, or a failure carrying one of the fixed error labels, a
message and an integer code; as a total function of its oracle it never
propagates an exception. -/
theorem c3_envelope_boundary (o : BQOracle) (co : ClickUpOracle) (cfg : Config)
    (query client_id client_name dataset_id task_id : String)
    (project_id sap api_key : Option String) (st ct : Bool) :
    isStructuredBQ (execute_bigquery o query sap).fst ∧
    isStructuredBQ (get_client_details o client_id client_name sap).fst ∧
    isStructuredBQ (get_client_datasets o cfg client_id client_name sap).fst ∧
    isStructuredBQ (get_dataset_tables o cfg dataset_id project_id sap).fst ∧
    isStructuredCU (get_clickup_task co task_id api_key st ct).fst :=
  ⟨runBQTool_structured o sap _ _, runBQTool_structured o sap _ _,
    runBQTool_structured o sap _ _, runBQTool_structured o sap _ _,
    get_clickup_task_structured co task_id api_key st ct⟩

/-! ## C6 -/

/-- C6: `get_clickup_task` maps the primary request's outcome to failures as
the source's handlers do: HTTP 401 to `Authentication Error`/401, HTTP 404 to
`Not Found`/404, any other HTTP error status to `ClickUp API Error` with the
upstream status as code, a connection failure to `Connection Error`/503, and
any other error to `Execution Error`/500. -/
theorem c6_clickup_error_mapping (o : ClickUpOracle) (task_id : String)
    (api_key : Option String) (st ct : Bool) :
    (∀ r, o.primary = .resp r → r.status = 401 →
      (get_clickup_task o task_id api_key st ct).fst =
        .failure "Authentication Error"
          (.atom "Invalid API key or unauthorized access") 401) ∧
    (∀ r, o.primary = .resp r → r.status = 404 →
      (get_clickup_task o task_id api_key st ct).fst =
        .failure "Not Found"
          (.atom ("Task with ID '" ++ task_id ++ "' not found")) 404) ∧
    (∀ r, o.primary = .resp r → 400 ≤ r.status → r.status < 600 →
      r.status ≠ 401 → r.status ≠ 404 →
      ∃ m, (get_clickup_task o task_id api_key st ct).fst =
        .failure "ClickUp API Error" m r.status) ∧
    (o.primary = .connError →
      (get_clickup_task o task_id api_key st ct).fst =
        .failure "Connection Error" (.atom clickup_conn_error_message) 503) ∧
    (∀ m, o.primary = .otherError m →
      (get_clickup_task o task_id api_key st ct).fst =
        .failure "Execution Error" (.atom m) 500) := by
  refine ⟨?_, ?_, ?_, ?_, ?_⟩
  · intro r hp h
    simp [get_clickup_task, hp, h]
  · intro r hp h
    simp [get_clickup_task, hp, h]
  · intro r hp h4l h4u h41 h44
    simp only [get_clickup_task, hp]
    rw [if_pos ⟨h4l, h4u⟩, if_neg h41, if_neg h44]
    exact ⟨_, rfl⟩
  · intro hp
    simp [get_clickup_task, hp]
  · intro m hp
    simp [get_clickup_task, hp]

/-- Witness for C6: a stubbed HTTP 401 yields the Authentication Error
failure with code 401. -/
theorem c6_clickup_error_mapping_witness :
    (get_clickup_task clickup401Oracle "abc" (some "pk_x") false false).fst =
      .failure "Authentication Error"
        (.atom "Invalid API key or unauthorized access") 401 :=
  (c6_clickup_error_mapping clickup401Oracle "abc" (some "pk_x") false false).1
    _ rfl rfl

/-! ## C4 (corrected) -/

/-- C4 counterexample: with `include_comments=true` and a successful primary
response lacking a `comments` field, a `ConnectionError` raised by the
comments request is not swallowed: the tool returns the Connection
Error failure, not the primary payload as Success. -/
theorem c4_counterexample :
    get_clickup_task clickupConnFailOracle "86c2f" (some "pk_x") false true =
      (.failure "Connection Error" (.atom clickup_conn_error_message) 503,
        ["https://api.clickup.com/api/v2/task/" ++ "86c2f",
          "https://api.clickup.com/api/v2/task/" ++ "86c2f" ++ "/comment"]) ∧
    (get_clickup_task clickupConnFailOracle "86c2f" (some "pk_x") false true).fst ≠
      .success [("id", .atom "86c2f")] := by
  exact ⟨rfl, by decide⟩

/-- C4 (amended): with `include_comments=true`, a successful primary response
lacking a `comments` field triggers exactly one additional GET to the
comments sub-resource.  A comments response with a non-200 status is
swallowed silently — the primary payload is returned as Success without a
`comments` key — but a `ConnectionError` (or any other exception) raised by
that second call propagates to the outer handlers and the call fails. -/
theorem c4_comments_best_effort (o : ClickUpOracle) (task_id : String)
    (api_key : Option String) (st : Bool) (r : HttpResp) (task_data : JObj)
    (hp : o.primary = .resp r) (hs : ¬(400 ≤ r.status ∧ r.status < 600))
    (hj : r.json = .ok task_data) (hc : lookupKey task_data "comments" = none) :
    (get_clickup_task o task_id api_key st true).snd =
      ["https://api.clickup.com/api/v2/task/" ++ task_id,
        "https://api.clickup.com/api/v2/task/" ++ task_id ++ "/comment"] ∧
    (∀ cr, o.comments = .resp cr → cr.status ≠ 200 →
      (get_clickup_task o task_id api_key st true).fst = .success task_data) ∧
    (o.comments = .connError →
      (get_clickup_task o task_id api_key st true).fst =
        .failure "Connection Error" (.atom clickup_conn_error_message) 503) ∧
    (∀ m, o.comments = .otherError m →
      (get_clickup_task o task_id api_key st true).fst =
        .failure "Execution Error" (.atom m) 500) := by
  refine ⟨?_, ?_, ?_, ?_⟩
  · cases hco : o.comments with
    | connError => simp [get_clickup_task, hp, hs, hj, hc, hco]
    | otherError m => simp [get_clickup_task, hp, hs, hj, hc, hco]
    | resp cr =>
      by_cases h200 : cr.status = 200
      · cases hcj : cr.json <;>
          simp [get_clickup_task, hp, hs, hj, hc, hco, h200, hcj]
      · simp [get_clickup_task, hp, hs, hj, hc, hco, h200]
  · intro cr hco h200
    simp [get_clickup_task, hp, hs, hj, hc, hco, h200]
  · intro hco
    simp [get_clickup_task, hp, hs, hj, hc, hco]
  · intro m hco
    simp [get_clickup_task, hp, hs, hj, hc, hco]

/-- Witness for C4's amended statement: the non-200 comments response is
swallowed and the primary payload is returned as Success. -/
theorem c4_comments_best_effort_witness :
    (get_clickup_task clickup500CommentsOracle "86c2f" (some "pk_x") false true).fst =
      .success [("id", .atom "86c2f")] :=
  ((c4_comments_best_effort clickup500CommentsOracle "86c2f" (some "pk_x") false
      { status := 200, json := .ok [("id", .atom "86c2f")], errStr := "" }
      [("id", .atom "86c2f")] rfl (by decide) rfl rfl).2.1)
    { status := 500, json := .error "Expecting value", errStr := "500 Server Error" }
    rfl (by decide)

end SarasMCP
